import Mathlib

/-
Verification of the advanced-ray tutorial notebooks
(advanced-ray/01-Ray-Tasks-Revisited.ipynb and
advanced-ray/solutions/Advanced-Ray-Solutions.ipynb).

The notebooks contain no engineered subsystem; the code to verify is the
small Python logic inside the cells: the slow_square exercise, the
ray.wait polling loops, the num_returns clamp, the crossing-point search
loop, and a per-cell inventory of what each code cell does.

Modelling conventions:
  - A Ray object id for a task slow_square.remote(n) is represented by
    its argument n (the ids submitted in the cells are pairwise distinct
    and are in bijection with the arguments).
  - ray.get on an id is a pure function from ids to values; ray.get on a
    list of ids maps that function over the list, preserving order, as
    the real call does.
  - ray.wait is an arbitrary function splitting the waiting list into a
    ready part and a remaining part; the only assumption used is the one
    each claim states.  For concrete runs, a task that sleeps s seconds
    completes after s seconds, all tasks having been submitted at once,
    so ray.wait with num_returns equal to one returns the remaining task
    with the least sleep time.
  - The Python while loops are modelled with an explicit fuel argument;
    running out of fuel yields none, so a result of the form some res
    states that the loop exited normally with result res.
-/

/-- Body of slow_square from the Exercise 3 cells: after time.sleep(n),
the function returns n*n.  The returned value. -/
def slow_square (n : Nat) : Nat := n * n

/-- Sleep time of slow_square at argument n: time.sleep(n) sleeps n
seconds. -/
def slow_square_sleep (n : Nat) : Nat := n

/-- The sequential Exercise 3 cell: squares = [slow_square(n) for n in
range(4)]. -/
def squares_sequential : List Nat := (List.range 4).map slow_square

/-- First task to complete among a list of pending ids, given each
task's sleep time: the id with the least sleep time (ties go to the
earlier-submitted id).  Returns none on the empty list. -/
def min_sleep_id (sleep : Nat → Nat) : List Nat → Option Nat
  | [] => none
  | x :: xs =>
    match min_sleep_id sleep xs with
    | none => some x
    | some m => if sleep x ≤ sleep m then some x else some m

/-- Model of ray.wait(waiting_ids) with the default num_returns of one
and no timeout, under the timing model above: the single task with the
least sleep time is ready, the rest remain, in submission order. -/
def ray_wait_default (sleep : Nat → Nat) (w : List Nat) : List Nat × List Nat :=
  match min_sleep_id sleep w with
  | none => ([], [])
  | some m => ([m], w.erase m)

/-- The ray.wait polling loop shared by the notebook cells:

    while len(waiting_ids) > 0:
        ready_ids, remaining_ids = ray.wait(waiting_ids, ...)
        results.extend(ray.get(ready_ids))
        waiting_ids = remaining_ids

parameterised by the wait function and by ray.get (a pure function from
ids to values).  fuel bounds the number of iterations; some res means
the loop exited with accumulated results res, none means the fuel was
exhausted before exit. -/
def wait_loop {α : Type} (wait : List Nat → List Nat × List Nat) (get : Nat → α) :
    Nat → List Nat → List α → Option (List α)
  | _, [], acc => some acc
  | 0, _ :: _, _ => none
  | fuel + 1, waiting, acc =>
    wait_loop wait get fuel (wait waiting).2 (acc ++ ((wait waiting).1).map get)

/-- C1: the Exercise 3 check holds.  The sequential cell computes
squares = [0, 1, 4, 9], and the solutions version, which accumulates
squares from a ray.wait loop over slow_square.remote(n) for n in
range(4), accumulates exactly [0, 1, 4, 9]: with sleeps 0, 1, 2, 3 the
tasks complete in submission order, so the loop retrieves them in that
order. -/
theorem exercise3_squares_check :
    squares_sequential = [0, 1, 4, 9] ∧
    wait_loop (ray_wait_default slow_square_sleep) slow_square 4 (List.range 4) [] =
      some [0, 1, 4, 9] := by
  constructor <;> rfl

/-- Helper for the wait-loop invariant: generalising over the
accumulator, a normally-exiting run of the loop appends to the
accumulator the values of a permutation of the waiting ids, provided
each wait call splits its input into two lists whose concatenation is a
permutation of that input. -/
theorem wait_loop_perm_aux {α : Type} (wait : List Nat → List Nat × List Nat)
    (get : Nat → α)
    (hw : ∀ w, w ≠ [] → List.Perm ((wait w).1 ++ (wait w).2) w) :
    ∀ (fuel : Nat) (waiting : List Nat) (acc res : List α),
      wait_loop wait get fuel waiting acc = some res →
      ∃ p : List Nat, List.Perm p waiting ∧ res = acc ++ p.map get := by
  intro fuel
  induction fuel with
  | zero =>
    intro waiting acc res hrun
    cases waiting with
    | nil =>
      refine ⟨[], List.Perm.refl _, ?_⟩
      have h : some acc = some res := hrun
      simp only [Option.some.injEq] at h
      simp [h]
    | cons x xs => exact absurd hrun (by simp [wait_loop])
  | succ fuel ih =>
    intro waiting acc res hrun
    cases waiting with
    | nil =>
      refine ⟨[], List.Perm.refl _, ?_⟩
      have h : some acc = some res := hrun
      simp only [Option.some.injEq] at h
      simp [h]
    | cons x xs =>
      have hrun' : wait_loop wait get fuel (wait (x :: xs)).2
          (acc ++ ((wait (x :: xs)).1).map get) = some res := hrun
      obtain ⟨p, hp, hres⟩ := ih _ _ _ hrun'
      refine ⟨(wait (x :: xs)).1 ++ p, ?_, ?_⟩
      · exact ((hp.append_left (wait (x :: xs)).1).trans (hw (x :: xs) (by simp)))
      · simp [hres, List.map_append]

/-- C2: in a ray.wait polling loop of the shape shared by all the
notebook cells, if every call to ray.wait splits its waiting list into
ready and remaining lists whose concatenation is a permutation of the
waiting list, then at loop exit the accumulated results list is exactly
the image under ray.get of a permutation of the originally submitted
ids: every submitted id is retrieved exactly once, none twice, none
dropped. -/
theorem wait_loop_each_id_exactly_once {α : Type}
    (wait : List Nat → List Nat × List Nat) (get : Nat → α)
    (fuel : Nat) (ids : List Nat) (res : List α)
    (hw : ∀ w, w ≠ [] → List.Perm ((wait w).1 ++ (wait w).2) w)
    (hrun : wait_loop wait get fuel ids [] = some res) :
    ∃ p : List Nat, List.Perm p ids ∧ res = p.map get := by
  obtain ⟨p, hp, hres⟩ := wait_loop_perm_aux wait get hw fuel ids [] res hrun
  exact ⟨p, hp, by simpa using hres⟩

/-- Witness for wait_loop_each_id_exactly_once: the wait function that
declares the head of the list ready, run to completion on the ids
[1, 2, 3] with ray.get squaring its argument. -/
theorem wait_loop_each_id_exactly_once_witness :
    ∃ p : List Nat, List.Perm p [1, 2, 3] ∧ [1, 4, 9] = p.map (fun n => n * n) := by
  apply wait_loop_each_id_exactly_once (fun w => (w.take 1, w.drop 1))
      (fun n => n * n) 3 [1, 2, 3] [1, 4, 9]
  · intro w hwne
    rw [List.take_append_drop]
  · rfl

/-- C3: the num_returns clamp from the num_returns=2 cells:
return_n = 2 if len(waiting_ids) > 1 else 1. -/
def return_n (waiting_ids : List Nat) : Nat :=
  if 1 < waiting_ids.length then 2 else 1

/-- C3: whenever the loop guard len(waiting_ids) > 0 holds, return_n
lies between 1 and len(waiting_ids), so the ray.wait error raised when
num_returns exceeds the length of the input list is unreachable. -/
theorem return_n_in_range (waiting_ids : List Nat) (h : 0 < waiting_ids.length) :
    1 ≤ return_n waiting_ids ∧ return_n waiting_ids ≤ waiting_ids.length := by
  unfold return_n
  split <;> omega

/-- Witness for return_n_in_range at the singleton list [7]. -/
theorem return_n_in_range_witness :
    1 ≤ return_n [7] ∧ return_n [7] ≤ [7].length :=
  return_n_in_range [7] (by decide)

/-
The crossing-point cell of 01-Ray-Tasks-Revisited.ipynb:

    i=0
    while i < len(ns) and local_durations[i] < remote_durations[i]:
        i=i+1
    print(... ns[i], local_durations[i], remote_durations[i] ...)

ns is a list of array sizes and local_durations / remote_durations are
the measured timings, built by one append per element of ns, so all
three lists have the same length.  Durations are modelled as rationals;
only their order matters to the loop.
-/

/-- Final value of i computed by the crossing-point while loop, by
recursion over the three lists in step: the loop increments i while
local_durations[i] < remote_durations[i] and stops at the first index
where that comparison fails, or at len(ns) when it never fails. -/
def crossing_index : List Nat → List ℚ → List ℚ → Nat
  | _ :: ns, l :: ls, r :: rs => if l < r then crossing_index ns ls rs + 1 else 0
  | _, _, _ => 0

theorem crossing_index_le_length (ns : List Nat) (ls rs : List ℚ) :
    crossing_index ns ls rs ≤ ns.length := by
  induction ns generalizing ls rs with
  | nil => cases ls <;> cases rs <;> simp [crossing_index]
  | cons n ns ih =>
    cases ls with
    | nil => simp [crossing_index]
    | cons l ls =>
      cases rs with
      | nil => simp [crossing_index]
      | cons r rs =>
        simp only [crossing_index, List.length_cons]
        split
        · exact Nat.succ_le_succ (ih ls rs)
        · omega

theorem crossing_index_lt_iff (ns : List Nat) (ls rs : List ℚ)
    (h1 : ls.length = ns.length) (h2 : rs.length = ns.length) :
    crossing_index ns ls rs < ns.length ↔
      ∃ k, k < ns.length ∧ rs.getD k 0 ≤ ls.getD k 0 := by
  induction ns generalizing ls rs with
  | nil => simp [crossing_index]
  | cons n ns ih =>
    cases ls with
    | nil => exact absurd h1 (by simp)
    | cons l ls =>
      cases rs with
      | nil => exact absurd h2 (by simp)
      | cons r rs =>
        simp only [List.length_cons, Nat.succ.injEq] at h1 h2
        simp only [crossing_index]
        split
        · rename_i hlr
          constructor
          · intro hlt
            obtain ⟨k, hk, hle⟩ := (ih ls rs h1 h2).mp (by simpa using hlt)
            exact ⟨k + 1, by simpa using hk, by simpa using hle⟩
          · intro ⟨k, hk, hle⟩
            cases k with
            | zero =>
              simp only [List.getD_cons_zero] at hle
              exact absurd hlr (not_lt.mpr hle)
            | succ k =>
              have := (ih ls rs h1 h2).mpr
                ⟨k, by simpa using hk, by simpa using hle⟩
              simpa using Nat.succ_lt_succ this
        · rename_i hlr
          simp only [List.length_cons]
          constructor
          · intro _
            exact ⟨0, Nat.succ_pos _, by simpa using not_lt.mp hlr⟩
          · intro _
            exact Nat.succ_pos _

/-- C4: after the crossing-point while loop exits, the indexing
ns[i], local_durations[i], remote_durations[i] is in bounds exactly
when some index k < len(ns) has local_durations[k] >= remote_durations[k];
and on measurement inputs where local execution is faster at every array
size, i equals len(ns), so the accesses are out of bounds (get? yields
none, the shallow rendering of the IndexError the print line raises). -/
theorem crossing_point_access (ns : List Nat) (ls rs : List ℚ)
    (h1 : ls.length = ns.length) (h2 : rs.length = ns.length) :
    (crossing_index ns ls rs < ns.length ↔
       ∃ k, k < ns.length ∧ rs.getD k 0 ≤ ls.getD k 0) ∧
    ((∀ k, k < ns.length → ls.getD k 0 < rs.getD k 0) →
       crossing_index ns ls rs = ns.length ∧
       ns.get? (crossing_index ns ls rs) = none) := by
  refine ⟨crossing_index_lt_iff ns ls rs h1 h2, ?_⟩
  intro hfast
  have hnone : ¬ ∃ k, k < ns.length ∧ rs.getD k 0 ≤ ls.getD k 0 := by
    rintro ⟨k, hk, hle⟩
    exact absurd (hfast k hk) (not_lt.mpr hle)
  have hge : ¬ crossing_index ns ls rs < ns.length :=
    fun hlt => hnone ((crossing_index_lt_iff ns ls rs h1 h2).mp hlt)
  have heq : crossing_index ns ls rs = ns.length :=
    le_antisymm (crossing_index_le_length ns ls rs) (not_lt.mp hge)
  exact ⟨heq, by rw [heq, List.get?_eq_none]⟩

/-- Witness for crossing_point_access: a one-element measurement where
local execution is faster, so the loop runs off the end of ns. -/
theorem crossing_point_access_witness :
    ((crossing_index [100] [1] [2] < [100].length ↔
       ∃ k, k < [100].length ∧ [(2 : ℚ)].getD k 0 ≤ [(1 : ℚ)].getD k 0) ∧
    ((∀ k, k < [100].length → [(1 : ℚ)].getD k 0 < [(2 : ℚ)].getD k 0) →
       crossing_index [100] [1] [2] = [100].length ∧
       [100].get? (crossing_index [100] [1] [2]) = none)) :=
  crossing_point_access [100] [1] [2] rfl rfl

/-
Timing model for the Exercise 3 duration check.  Each task
slow_square.remote(n) sleeps n seconds; all four tasks are submitted
together, before the loop that collects results, so under the intended
parallel execution the elapsed time is the largest sleep, while the
original sequential cell sleeps the sum of the four sleep times.
-/

/-- Sleep times of the four Exercise 3 tasks, slow_square(n) for n in
range(4). -/
def exercise3_sleeps : List Nat := (List.range 4).map slow_square_sleep

/-- Elapsed wall-clock time when the tasks run in parallel from a
common start: the latest completion, i.e. the maximum sleep time. -/
def parallel_duration (sleeps : List Nat) : Nat := sleeps.foldr Nat.max 0

/-- Elapsed wall-clock time when the calls run sequentially: the sum of
the sleep times. -/
def sequential_duration (sleeps : List Nat) : Nat := sleeps.foldr (· + ·) 0

/-- C9: under the timing model above the Exercise 3 duration check
passes after the conversion to Ray tasks: the parallel duration of the
four tasks is 3 seconds, below the asserted bound of 4.1 seconds,
whereas the sequential version takes 6 seconds, above the bound. -/
theorem exercise3_duration_check :
    parallel_duration exercise3_sleeps = 3 ∧
    (parallel_duration exercise3_sleeps : ℚ) < 41 / 10 ∧
    sequential_duration exercise3_sleeps = 6 ∧
    ¬ ((sequential_duration exercise3_sleeps : ℚ) < 41 / 10) := by
  refine ⟨rfl, ?_, rfl, ?_⟩
  · rw [show parallel_duration exercise3_sleeps = 3 from rfl]
    norm_num
  · rw [show sequential_duration exercise3_sleeps = 6 from rfl]
    norm_num

/-
Per-cell inventory of the code cells of the two notebooks (plus the
bundled Ray SGD notebook document found in the same source file as
01-Ray-Tasks-Revisited.ipynb).  Each entry transcribes one code cell,
in order of appearance, recording

  - ops: the kinds of things the cell does,
      frameworkCall        a call into the external framework or an
                           external library API (ray.*, remote task
                           decoration and submission, TorchTrainer,
                           torch, numpy inside remote bodies),
      printPlot            printing or plotting helper calls (print, pd,
                           pnd, bokeh),
      localCompute         original local Python computation in the cell
                           itself (loops, list management, locally
                           executed functions, calls to the repository
                           game-of-life helper script),
      errorGuard           logic of the cell avoiding an error condition
                           (the return_n clamp that avoids the ray.wait
                           num_returns error; the os.path.isfile check
                           before os.remove),
      checkAssert          pedagogical assert statements checking a
                           computed value,
      persistentFile       naming or managing a persistent on-disk
                           artifact (the profiling timeline file
                           task-timeline.txt),
      concurrencyPrimitive a concurrency primitive implemented in the
                           cell itself (locks, threads, queues); no cell
                           has one;
  - kwargs: the keyword arguments the cell passes to the distributed
    framework API (ray.init, ray.wait, TorchTrainer).  Keyword
    arguments to plotting or printing helpers and to the repository
    game-of-life script are not framework configuration and are not
    recorded.  max_calls and max_retries appear in the notebooks only
    inside markdown example blocks, not in any code cell.
-/

/-- Kind of operation a notebook code cell performs. -/
inductive CellOp where
  | frameworkCall
  | printPlot
  | localCompute
  | errorGuard
  | checkAssert
  | persistentFile
  | concurrencyPrimitive
  deriving DecidableEq

/-- One code cell of a notebook: which notebook it is in, a short name,
the kinds of operations it performs, and the keyword arguments it
passes to the distributed framework API. -/
structure Cell where
  notebook : String
  name : String
  ops : List CellOp
  kwargs : List String
  deriving DecidableEq

/-- The code cells of 01-Ray-Tasks-Revisited.ipynb (nb1), of
solutions/Advanced-Ray-Solutions.ipynb (sol), and of the Ray SGD
notebook document bundled in the first file (sgd), in order. -/
def cells : List Cell := [
  -- nb1: import ray, time, os, sys / numpy / sys.path.append / printing helpers
  ⟨"01-Ray-Tasks-Revisited", "imports", [], []⟩,
  -- nb1: ray.init(ignore_reinit_error=True)
  ⟨"01-Ray-Tasks-Revisited", "ray-init", [.frameworkCall], ["ignore_reinit_error"]⟩,
  -- nb1: print of ray.get_webui_url()
  ⟨"01-Ray-Tasks-Revisited", "dashboard-url", [.frameworkCall, .printPlot], []⟩,
  -- nb1: @ray.remote def make_array(n): time.sleep(n/10.0); np.random.standard_normal(n)
  ⟨"01-Ray-Tasks-Revisited", "def-make-array", [.frameworkCall], []⟩,
  -- nb1: @ray.remote def add_arrays(a1, a2): time.sleep(a1.size/10.0); np.add(a1, a2)
  ⟨"01-Ray-Tasks-Revisited", "def-add-arrays", [.frameworkCall], []⟩,
  -- nb1: id1, id2 = make_array.remote(20); id3 = add_arrays.remote(id1, id2); print(ray.get(id3)); pd
  ⟨"01-Ray-Tasks-Revisited", "task-dependencies", [.frameworkCall, .printPlot], []⟩,
  -- nb1: array_ids / added_array_ids comprehensions; for array in ray.get(...): print; pd
  ⟨"01-Ray-Tasks-Revisited", "get-all-at-once", [.frameworkCall, .printPlot], []⟩,
  -- nb1: while loop on ray.wait(waiting_ids, num_returns=1, timeout=10.0), list management, prints
  ⟨"01-Ray-Tasks-Revisited", "wait-loop-num-returns-1",
    [.frameworkCall, .printPlot, .localCompute], ["num_returns", "timeout"]⟩,
  -- nb1: same loop with return_n = 2 if len(waiting_ids) > 1 else 1 guarding num_returns
  ⟨"01-Ray-Tasks-Revisited", "wait-loop-num-returns-2",
    [.frameworkCall, .printPlot, .localCompute, .errorGuard], ["num_returns", "timeout"]⟩,
  -- nb1: Exercise 1 cell, an identical copy of the return_n loop
  ⟨"01-Ray-Tasks-Revisited", "exercise1-wait-loop",
    [.frameworkCall, .printPlot, .localCompute, .errorGuard], ["num_returns", "timeout"]⟩,
  -- nb1: Exercise 3, def slow_square plus the sequential comprehension and prints
  ⟨"01-Ray-Tasks-Revisited", "exercise3-sequential", [.printPlot, .localCompute], []⟩,
  -- nb1: assert squares == [0, 1, 4, 9]; assert duration < 4.1
  ⟨"01-Ray-Tasks-Revisited", "exercise3-asserts", [.checkAssert], []⟩,
  -- nb1: def noop(n), def local_make_array(n), @ray.remote def remote_make_array(n)
  ⟨"01-Ray-Tasks-Revisited", "def-noop-make-array", [.frameworkCall, .localCompute], []⟩,
  -- nb1: trials=100
  ⟨"01-Ray-Tasks-Revisited", "trials-constant", [], []⟩,
  -- nb1: timing of [noop(t) for t in range(trials)] with print
  ⟨"01-Ray-Tasks-Revisited", "noop-baseline", [.printPlot, .localCompute], []⟩,
  -- nb1: timing of [local_make_array(100000) for _ in range(trials)] with print
  ⟨"01-Ray-Tasks-Revisited", "local-make-array-trials", [.printPlot, .localCompute], []⟩,
  -- nb1: timing of remote_make_array.remote(100000) trials with ray.get and print
  ⟨"01-Ray-Tasks-Revisited", "remote-make-array-trials", [.frameworkCall, .printPlot], []⟩,
  -- nb1: ns comprehension and the measurement loop filling local_durations and remote_durations
  ⟨"01-Ray-Tasks-Revisited", "granularity-measurements",
    [.frameworkCall, .printPlot, .localCompute], []⟩,
  -- nb1: bokeh figure and show of the two duration curves
  ⟨"01-Ray-Tasks-Revisited", "bokeh-plot", [.printPlot], []⟩,
  -- nb1: the crossing-point while loop and the print indexing ns[i] and the duration lists
  ⟨"01-Ray-Tasks-Revisited", "crossing-point", [.printPlot, .localCompute], []⟩,
  -- nb1: timeline_file assignment; if os.path.isfile(timeline_file): os.remove(timeline_file)
  ⟨"01-Ray-Tasks-Revisited", "timeline-cleanup",
    [.localCompute, .errorGuard, .persistentFile], []⟩,
  -- nb1: ray.timeline(timeline_file); task submissions; prints; pd
  ⟨"01-Ray-Tasks-Revisited", "timeline-capture",
    [.frameworkCall, .printPlot, .persistentFile], []⟩,
  -- nb1: ray.shutdown()
  ⟨"01-Ray-Tasks-Revisited", "ray-shutdown", [.frameworkCall], []⟩,
  -- sol: import ray, time, sys / numpy / sys.path.append / printing helpers
  ⟨"Advanced-Ray-Solutions", "imports", [], []⟩,
  -- sol: ray.init(ignore_reinit_error=True)
  ⟨"Advanced-Ray-Solutions", "ray-init", [.frameworkCall], ["ignore_reinit_error"]⟩,
  -- sol: @ray.remote def slow_square(n)
  ⟨"Advanced-Ray-Solutions", "ex1-def-slow-square", [.frameworkCall], []⟩,
  -- sol: ids = [slow_square.remote(n) for n in range(4)]; squares = ray.get(ids)
  ⟨"Advanced-Ray-Solutions", "ex1-run", [.frameworkCall], []⟩,
  -- sol: assert squares == [0, 1, 4, 9]; assert duration < 4.1
  ⟨"Advanced-Ray-Solutions", "ex1-asserts", [.checkAssert], []⟩,
  -- sol: @ray.remote make_array and add_arrays redefinitions
  ⟨"Advanced-Ray-Solutions", "ex2-def-remote-functions", [.frameworkCall], []⟩,
  -- sol: the return_n wait loop with timeout=2.5
  ⟨"Advanced-Ray-Solutions", "ex2-wait-loop",
    [.frameworkCall, .printPlot, .localCompute, .errorGuard], ["num_returns", "timeout"]⟩,
  -- sol: Exercise 3, remote slow_square with the default ray.wait(waiting_ids) loop
  ⟨"Advanced-Ray-Solutions", "ex3-wait-loop", [.frameworkCall, .localCompute], []⟩,
  -- sol: assert squares == [0, 1, 4, 9]; assert duration < 4.1
  ⟨"Advanced-Ray-Solutions", "ex3-asserts", [.checkAssert], []⟩,
  -- sol: from game_of_life_2_exercise import RayGame, apply_rules_block, time_ray_games
  ⟨"Advanced-Ray-Solutions", "gol-import", [], []⟩,
  -- sol: time_ray_games(num_games=1, max_steps=400, batch_size=1, ...) on the repository script
  ⟨"Advanced-Ray-Solutions", "gol-run-1", [.localCompute], []⟩,
  -- sol: time_ray_games on a (200,200) grid without block updates
  ⟨"Advanced-Ray-Solutions", "gol-run-2", [.localCompute], []⟩,
  -- sol: time_ray_games on a (200,200) grid with block_size=50
  ⟨"Advanced-Ray-Solutions", "gol-run-3", [.localCompute], []⟩,
  -- sol: timed time_ray_games run with batch_size=1
  ⟨"Advanced-Ray-Solutions", "gol-batch-1", [.localCompute], []⟩,
  -- sol: timed time_ray_games run with batch_size=50
  ⟨"Advanced-Ray-Solutions", "gol-batch-2", [.localCompute], []⟩,
  -- sgd: ray / ray.util.sgd / torch imports
  ⟨"Ray-SGD", "imports", [], []⟩,
  -- sgd: ray.init(ignore_reinit_error=True)
  ⟨"Ray-SGD", "ray-init", [.frameworkCall], ["ignore_reinit_error"]⟩,
  -- sgd: model_creator, optimizer_creator, data_creator wrapping torch and DataLoader calls
  ⟨"Ray-SGD", "creator-functions", [.frameworkCall], []⟩,
  -- sgd: TorchTrainer(model_creator=..., data_creator=..., optimizer_creator=..., loss_creator=..., use_gpu=False, config=...)
  ⟨"Ray-SGD", "trainer-construction", [.frameworkCall],
    ["model_creator", "data_creator", "optimizer_creator", "loss_creator", "use_gpu", "config"]⟩,
  -- sgd: for i in range(10): stats = trainer.train(); print; trainer.shutdown()
  ⟨"Ray-SGD", "training-loop", [.frameworkCall, .printPlot], []⟩,
  -- sgd: ray.shutdown()
  ⟨"Ray-SGD", "ray-shutdown", [.frameworkCall], []⟩]

/-- Cells whose operations go beyond external framework calls plus
printing and plotting: the ray.wait accumulation loops, the sequential
Exercise 3 cell, the pedagogical assert cells, the task-granularity
benchmark helpers and timing loops, the crossing-point search, the
timeline-file cells, and the game-of-life helper-script runs. -/
def cell_exceptions : List String :=
  ["wait-loop-num-returns-1", "wait-loop-num-returns-2", "exercise1-wait-loop",
   "exercise3-sequential", "exercise3-asserts", "def-noop-make-array",
   "noop-baseline", "local-make-array-trials", "granularity-measurements",
   "crossing-point", "timeline-cleanup", "timeline-capture",
   "ex1-asserts", "ex2-wait-loop", "ex3-wait-loop", "ex3-asserts",
   "gol-run-1", "gol-run-2", "gol-run-3", "gol-batch-1", "gol-batch-2"]

/-- C5, original statement refuted: it is not the case that every code
cell consists solely of external-framework API calls plus
printing/plotting; for instance the crossing-point cell runs an
original local search loop. -/
theorem not_every_cell_only_framework_and_print :
    ¬ ∀ c ∈ cells, ∀ op ∈ c.ops,
        op = CellOp.frameworkCall ∨ op = CellOp.printPlot := by
  decide

/-- C5, amended: outside an explicit list of exception cells — those
containing original local computation, pedagogical asserts, error
guards, timeline-file management, or runs of the repository
game-of-life script — every code cell consists solely of
external-framework API calls plus printing/plotting. -/
theorem cells_only_framework_outside_exceptions :
    ∀ c ∈ cells, c.name ∉ cell_exceptions →
      ∀ op ∈ c.ops, op = CellOp.frameworkCall ∨ op = CellOp.printPlot := by
  decide

/-- Witness for cells_only_framework_outside_exceptions at the ray.init
cell of the first notebook and its single operation. -/
theorem cells_only_framework_outside_exceptions_witness :
    CellOp.frameworkCall = CellOp.frameworkCall ∨
      CellOp.frameworkCall = CellOp.printPlot :=
  cells_only_framework_outside_exceptions
    ⟨"01-Ray-Tasks-Revisited", "ray-init", [.frameworkCall], ["ignore_reinit_error"]⟩
    (by decide) (by decide) CellOp.frameworkCall (by decide)

/-- C6, original statement refuted: some notebook cells do contain
logic of their own that avoids an error condition — the return_n clamp
avoiding the ray.wait num_returns error, and the os.path.isfile check
before os.remove in the timeline cleanup cell. -/
theorem some_cell_has_error_guard :
    ¬ ∀ c ∈ cells, CellOp.errorGuard ∉ c.ops := by
  decide

/-- C6, amended: no error-handling logic is implemented beyond two
local guards; every cell containing error-avoidance logic of its own is
one of the return_n cells or the timeline cleanup cell.  Retries and
worker exit limits remain a configuration surface of the framework and
appear in no code cell. -/
theorem error_guards_only_in_named_cells :
    ∀ c ∈ cells, CellOp.errorGuard ∈ c.ops →
      c.name ∈ ["wait-loop-num-returns-2", "exercise1-wait-loop",
                "ex2-wait-loop", "timeline-cleanup"] := by
  decide

/-- Witness for error_guards_only_in_named_cells at the num_returns=2
loop cell. -/
theorem error_guards_only_in_named_cells_witness :
    "wait-loop-num-returns-2" ∈ ["wait-loop-num-returns-2", "exercise1-wait-loop",
                                 "ex2-wait-loop", "timeline-cleanup"] :=
  error_guards_only_in_named_cells
    ⟨"01-Ray-Tasks-Revisited", "wait-loop-num-returns-2",
      [.frameworkCall, .printPlot, .localCompute, .errorGuard],
      ["num_returns", "timeout"]⟩
    (by decide) (by decide)

/-- C7, original statement refuted: some notebook cells do name and
retain persistent state of their own — the profiling timeline file
task-timeline.txt, named by the cleanup cell (which deletes a copy left
over from an earlier run) and written through the capture cell. -/
theorem some_cell_has_persistent_state :
    ¬ ∀ c ∈ cells, CellOp.persistentFile ∉ c.ops := by
  decide

/-- C7, amended: apart from the two profiling-timeline cells, which
name and manage the on-disk file task-timeline.txt, no notebook cell
creates, names, or retains persistent state of its own; all other data
are ephemeral values passed to and from the framework calls. -/
theorem persistent_state_only_in_timeline_cells :
    ∀ c ∈ cells, CellOp.persistentFile ∈ c.ops →
      c.name ∈ ["timeline-cleanup", "timeline-capture"] := by
  decide

/-- Witness for persistent_state_only_in_timeline_cells at the timeline
cleanup cell. -/
theorem persistent_state_only_in_timeline_cells_witness :
    "timeline-cleanup" ∈ ["timeline-cleanup", "timeline-capture"] :=
  persistent_state_only_in_timeline_cells
    ⟨"01-Ray-Tasks-Revisited", "timeline-cleanup",
      [.localCompute, .errorGuard, .persistentFile], []⟩
    (by decide) (by decide)

/-- C8: all concurrency is owned by the external framework.  No code
cell implements a concurrency primitive of its own, and every keyword
argument a cell passes to the framework API occurs in a cell whose
concurrency behaviour consists of framework calls — the notebooks only
configure the framework (num_returns, timeout, ignore_reinit_error and
the distributed-trainer arguments) and observe its behaviour. -/
theorem concurrency_owned_by_framework :
    ∀ c ∈ cells, CellOp.concurrencyPrimitive ∉ c.ops ∧
      ∀ k ∈ c.kwargs, CellOp.frameworkCall ∈ c.ops := by
  decide

/-- Witness for concurrency_owned_by_framework at the ray.init cell and
its ignore_reinit_error keyword argument. -/
theorem concurrency_owned_by_framework_witness :
    CellOp.concurrencyPrimitive ∉ [CellOp.frameworkCall] ∧
      CellOp.frameworkCall ∈ [CellOp.frameworkCall] := by
  have h := concurrency_owned_by_framework
    ⟨"01-Ray-Tasks-Revisited", "ray-init", [.frameworkCall], ["ignore_reinit_error"]⟩
    (by decide)
  exact ⟨h.1, h.2 "ignore_reinit_error" (by decide)⟩
